import Mathlib

/-!
Shallow embedding of the ingestion-and-windowing pipeline of
`src/plot_realtime.py` (MPU-6050 realtime plotter).

Modelling conventions:
- JSON numbers and Python floats are modelled as exact rationals (`ℚ`).
- `time.time()` clock reads are explicit `ℚ` parameters threaded to the
  functions that perform them (`Measurement.deserialize` reads the clock
  once on entry; `_update_data_while_locked` reads it once after the
  append).
- Python exceptions are modelled with `Except PyError`; a raised exception
  propagates exactly where the source has no enclosing `try`.
- `json.loads` is Python library code, not part of this repository, so a
  datagram payload enters the model as the outcome of parsing:
  `Except PyError Json` (malformed payloads are `.error .jsonDecodeError`).
-/

/-- Python values produced by `json.loads`, as used by this program. -/
inductive Json where
  | num (q : ℚ)
  | str (s : String)
  | bool (b : Bool)
  | null
  | arr (elems : List Json)
  | obj (fields : List (String × Json))

/-- The Python exceptions this program can raise or catch. -/
inductive PyError where
  | jsonDecodeError
  | keyError (k : String)
  | typeError
  | assertionError
  | indexError
  | valueError
deriving DecidableEq

/-- Python subscripting `j[key]` with a string key: on a dict it returns the
value or raises `KeyError`; on any non-dict JSON value it raises
`TypeError`. -/
def Json.subscript (j : Json) (key : String) : Except PyError Json :=
  match j with
  | .obj fields =>
    match fields.lookup key with
    | some v => .ok v
    | none => .error (.keyError key)
  | _ => .error .typeError

/-- Embeds `class Rotation(NamedTuple)`. Python does not enforce the `float`
annotations, so the fields hold whatever JSON values were stored. -/
structure Rotation where
  roll : Json
  pitch : Json

/-- Embeds `class ThreeVector(NamedTuple)`: basic x/y/z vector. -/
structure ThreeVector where
  x : Json
  y : Json
  z : Json

/-- Embeds `class Measurement(NamedTuple)`: MPU 6050 sensor readings. The
`timestamp` is always a clock reading (a number), the remaining fields hold
the JSON values extracted from the payload. -/
structure Measurement where
  timestamp : ℚ
  temp : Json
  rot : Rotation
  gyro : ThreeVector
  acc : ThreeVector

/-- Embeds `Measurement.deserialize(data)`. The first statement reads the clock
(`timestamp` parameter); `data` is the outcome of `json.loads`; every field
access is a bare subscript, so a missing key or a non-dict intermediate
raises, and nothing is caught here. No numeric validation is performed on
the extracted values. -/
def Measurement.deserialize (timestamp : ℚ) (data : Except PyError Json) :
    Except PyError Measurement := do
  let json_data ← data
  let roll ← json_data.subscript "roll"
  let pitch ← json_data.subscript "pitch"
  let temp ← json_data.subscript "temp"
  let rot : Rotation := ⟨roll, pitch⟩
  let gyroX ← (← json_data.subscript "gyro").subscript "x"
  let gyroY ← (← json_data.subscript "gyro").subscript "y"
  let gyroZ ← (← json_data.subscript "gyro").subscript "z"
  let gyro : ThreeVector := ⟨gyroX, gyroY, gyroZ⟩
  let accX ← (← json_data.subscript "acc").subscript "x"
  let accY ← (← json_data.subscript "acc").subscript "y"
  let accZ ← (← json_data.subscript "acc").subscript "z"
  let acc : ThreeVector := ⟨accX, accY, accZ⟩
  return { timestamp := timestamp, temp := temp, rot := rot,
           gyro := gyro, acc := acc }

/-- Embeds `class MeasType(enum.Enum)`. -/
inductive MeasType where
  | temp
  | rot
  | gyro
  | acc
deriving DecidableEq

namespace DataPlotter

/-- Embeds `DataPlotter._update_data_while_locked(point)`: append `point` to the
deque end, then pop from the left while the front's timestamp is older than
`now - window_s`, stopping at the first front element that is recent
enough. `now` is the `time.time()` read performed inside the call, after
the append. The pop loop is exactly `dropWhile` on the appended list. -/
def update_data_while_locked (window_s : ℚ) (data : List Measurement)
    (point : Measurement) (now : ℚ) : List Measurement :=
  (data ++ [point]).dropWhile (fun m => decide (m.timestamp < now - window_s))

/-- One iteration of input to the receiver loop `DataPlotter._update_data`:
either `recvfrom` raised `socket.timeout`, or a datagram arrived whose
`json.loads` outcome is `parsed`, with `ts` the clock read inside
`Measurement.deserialize` and `now` the clock read inside
`_update_data_while_locked`. -/
inductive RecvEvent where
  | timeout
  | datagram (parsed : Except PyError Json) (ts : ℚ) (now : ℚ)

/-- Embeds `DataPlotter._update_data`, run over a finite prefix of receive events.
The `try` block wraps only `self._listener.get()` and its `except` clause
catches only `socket.timeout`; any other exception — in particular every
decode failure raised inside `Measurement.deserialize` — propagates out of
the loop and terminates the receiver thread, modelled as `.error`. -/
def update_data (window_s : ℚ) (data : List Measurement) :
    List RecvEvent → Except PyError (List Measurement)
  | [] => .ok data
  | .timeout :: rest => update_data window_s data rest
  | .datagram parsed ts now :: rest =>
    match Measurement.deserialize ts parsed with
    | .error e => .error e
    | .ok point =>
      update_data window_s (update_data_while_locked window_s data point now) rest

end DataPlotter

/-- The per-channel raw value series extracted in `DataPlotter.update` (the
dynamic `__getattribute__` dispatch written out over the closed enumeration
of channels; for `rot` the iteration order is `ROT = ["roll", "pitch"]`). -/
def DataPlotter.timeseriesFor (meas_type : MeasType) (data : List Measurement) :
    List (List Json) :=
  match meas_type with
  | .gyro => [data.map fun d => d.gyro.x, data.map fun d => d.gyro.y,
              data.map fun d => d.gyro.z]
  | .acc => [data.map fun d => d.acc.x, data.map fun d => d.acc.y,
             data.map fun d => d.acc.z]
  | .rot => [data.map fun d => d.rot.roll, data.map fun d => d.rot.pitch]
  | .temp => [data.map fun d => d.temp]

/-- numpy elementwise multiplication by `factor` applied to one stored
value (`timeseries *= -9.8`): numbers multiply, any non-numeric stored
value raises `TypeError`. -/
def jsonScale (factor : ℚ) : Json → Except PyError Json
  | .num q => .ok (.num (q * factor))
  | _ => .error .typeError

/-- Read one stored value as a number, as the numpy min/max reductions
require; non-numeric stored values are modelled as raising `TypeError`. -/
def jsonToNum : Json → Except PyError ℚ
  | .num q => .ok q
  | _ => .error .typeError

/-- Embeds `np.min` over all values of all series of the channel (shared scale
across the series; empty input raises `ValueError`). -/
def npMin (timeseries : List (List Json)) : Except PyError ℚ := do
  let vals ← timeseries.flatten.mapM jsonToNum
  match vals with
  | [] => .error .valueError
  | q :: rest => .ok (rest.foldl min q)

/-- Embeds `np.max` over all values of all series of the channel. -/
def npMax (timeseries : List (List Json)) : Except PyError ℚ := do
  let vals ← timeseries.flatten.mapM jsonToNum
  match vals with
  | [] => .error .valueError
  | q :: rest => .ok (rest.foldl max q)

/-- The observable state of a `DataPlotter`: the configuration fixed at
construction (`meas_type`, `window_s`, `start_time`), the shared deque
`_data`, and the renderer-facing outputs assigned by `update` (per-line
x/y data, x-axis limits, y-axis limits). -/
structure PlotterState where
  meas_type : MeasType
  window_s : ℚ
  start_time : ℚ
  data : List Measurement
  lines : List (List ℚ × List Json)
  xlim : ℚ × ℚ
  ylim : ℚ × ℚ

/-- Embeds `list(self._data)` taken under the lock: the snapshot handed to the
projection code is a copy of the buffer contents. -/
def DataPlotter.snapshot (s : PlotterState) : List Measurement := s.data

/-- The channel series as assigned in `update`: the extracted raw series,
with the unit conversion `timeseries *= -9.8` applied exactly when the
channel is `acc`. -/
def DataPlotter.scaledSeries (meas_type : MeasType) (data : List Measurement) :
    Except PyError (List (List Json)) :=
  if meas_type = MeasType.acc then
    (DataPlotter.timeseriesFor meas_type data).mapM fun series =>
      series.mapM (jsonScale (-9.8))
  else
    .ok (DataPlotter.timeseriesFor meas_type data)

/-- Embeds `DataPlotter.update`: copy the buffer under the lock; return
unchanged if the snapshot has at most one element; otherwise build the
relative-timestamp axis, extract the channel's series, scale by -9.8 for
the `acc` channel only, assert the series count matches the line count,
assign the lines, and compute the x/y axis limits (`timestamp[-1]`,
`timestamp[0]`, `np.min`/`np.max` with the 10% margins). Exceptions
escaping any step are modelled as `.error`. -/
def DataPlotter.update (s : PlotterState) : Except PyError PlotterState :=
  let data := DataPlotter.snapshot s
  if data.length ≤ 1 then .ok s
  else
    let timestamp := data.map fun d => d.timestamp - s.start_time
    match DataPlotter.scaledSeries s.meas_type data with
    | .error e => .error e
    | .ok timeseries =>
      if timeseries.length = s.lines.length then
        let lines := (s.lines.zip timeseries).map fun p => (timestamp, p.2)
        match timestamp.getLast?, timestamp.head? with
        | some tlast, some tfirst =>
          let xlim :=
            if s.window_s ≤ tlast then (tfirst, tlast)
            else ((0 : ℚ), s.window_s)
          match npMin timeseries, npMax timeseries with
          | .ok min0, .ok max0 =>
            .ok { s with
                  lines := lines
                  xlim := xlim
                  ylim := (min0 - 0.1 * |min0|, max0 + 0.1 * |max0|) }
          | .error e, _ => .error e
          | _, .error e => .error e
        | none, _ => .error .indexError
        | _, none => .error .indexError
      else .error .assertionError

/-- Iterate the producer's append path over a list of (sample, clock-read)
pairs, mirroring a sequence of successful loop iterations of
`_update_data`. -/
def runAppends (window_s : ℚ) (data : List Measurement)
    (l : List (Measurement × ℚ)) : List Measurement :=
  l.foldl (fun buf pc => DataPlotter.update_data_while_locked window_s buf pc.1 pc.2)
    data

/-- A sample value whose payload fields are irrelevant to the buffer
operations (only `timestamp` is inspected by append/evict). -/
def mkMeas (t : ℚ) : Measurement :=
  { timestamp := t, temp := .num 0, rot := ⟨.num 0, .num 0⟩,
    gyro := ⟨.num 0, .num 0, .num 0⟩, acc := ⟨.num 0, .num 0, .num 0⟩ }

/-- The spec's example payload, as parsed:
`{"roll":0.1,"pitch":-0.2,"temp":36.5,"gyro":{"x":0,"y":0,"z":0},
"acc":{"x":0,"y":0,"z":1}}`. -/
def examplePayload : Json :=
  .obj [("roll", .num 0.1), ("pitch", .num (-0.2)), ("temp", .num 36.5),
        ("gyro", .obj [("x", .num 0), ("y", .num 0), ("z", .num 0)]),
        ("acc", .obj [("x", .num 0), ("y", .num 0), ("z", .num 1)])]

/-- The example payload with the `temp` field removed. -/
def examplePayloadNoTemp : Json :=
  .obj [("roll", .num 0.1), ("pitch", .num (-0.2)),
        ("gyro", .obj [("x", .num 0), ("y", .num 0), ("z", .num 0)]),
        ("acc", .obj [("x", .num 0), ("y", .num 0), ("z", .num 1)])]

/-- The example payload with a non-numeric value stored under the required
key `roll`. -/
def examplePayloadStrRoll : Json :=
  .obj [("roll", .str "oops"), ("pitch", .num (-0.2)), ("temp", .num 36.5),
        ("gyro", .obj [("x", .num 0), ("y", .num 0), ("z", .num 0)]),
        ("acc", .obj [("x", .num 0), ("y", .num 0), ("z", .num 1)])]

/-- The example payload with an additional unrecognized key. -/
def examplePayloadExtraKey : Json :=
  .obj [("roll", .num 0.1), ("pitch", .num (-0.2)), ("temp", .num 36.5),
        ("gyro", .obj [("x", .num 0), ("y", .num 0), ("z", .num 0)]),
        ("acc", .obj [("x", .num 0), ("y", .num 0), ("z", .num 1)]),
        ("extra", .str "ignored")]

/-- A plotter state holding the buffer produced by two concrete appends. -/
def exampleBufferState : PlotterState :=
  { meas_type := .temp, window_s := 10, start_time := 0,
    data := runAppends 10 [] [(mkMeas 0, 0), (mkMeas 5, 5)],
    lines := [([], [])], xlim := (0, 10), ylim := (0, 1) }

/-- A plotter state whose buffer holds exactly one sample. -/
def exampleSingletonState : PlotterState :=
  { meas_type := .temp, window_s := 10, start_time := 0,
    data := [mkMeas 0], lines := [([], [])], xlim := (0, 10), ylim := (0, 1) }

/-- A sample with a given timestamp and raw acceleration components. -/
def mkMeasAcc (t ax ay az : ℚ) : Measurement :=
  { timestamp := t, temp := .num 0, rot := ⟨.num 0, .num 0⟩,
    gyro := ⟨.num 0, .num 0, .num 0⟩, acc := ⟨.num ax, .num ay, .num az⟩ }

/-- An `acc`-channel state with two buffered samples whose stored raw
acceleration is `{0,0,1}`. -/
def exampleAccState : PlotterState :=
  { meas_type := .acc, window_s := 10, start_time := 0,
    data := [mkMeasAcc 0 0 0 1, mkMeasAcc 1 0 0 1],
    lines := [([], []), ([], []), ([], [])], xlim := (0, 10), ylim := (0, 1) }

/-- One append leaves a suffix of the old contents followed by the new
sample: eviction only pops from the front. -/
lemma update_data_while_locked_suffix (window_s : ℚ) (data : List Measurement)
    (point : Measurement) (now : ℚ) :
    DataPlotter.update_data_while_locked window_s data point now <:+ data ++ [point] :=
  List.dropWhile_suffix _

/-- A run of appends leaves a suffix of the initial contents followed by the
appended samples. -/
lemma runAppends_suffix (window_s : ℚ) (data : List Measurement)
    (l : List (Measurement × ℚ)) :
    runAppends window_s data l <:+ data ++ l.map Prod.fst := by
  induction l generalizing data with
  | nil => simp [runAppends]
  | cons pc rest ih =>
    have h2 := ih (DataPlotter.update_data_while_locked window_s data pc.1 pc.2)
    have h3 : DataPlotter.update_data_while_locked window_s data pc.1 pc.2
        ++ rest.map Prod.fst <:+ (data ++ [pc.1]) ++ rest.map Prod.fst := by
      obtain ⟨r, hr⟩ := update_data_while_locked_suffix window_s data pc.1 pc.2
      exact ⟨r, by rw [← List.append_assoc, hr]⟩
    have h4 := h2.trans h3
    simpa [runAppends, List.append_assoc] using h4

/-- After a `dropWhile` scan, the new front (when one exists) no longer
satisfies the predicate: the scan removed a maximal leading run. -/
lemma head_dropWhile_eq_false {α : Type _} (p : α → Bool) :
    ∀ (l : List α) (a : α) (t : List α), l.dropWhile p = a :: t → p a = false := by
  intro l
  induction l with
  | nil => intro a t h; simp [List.dropWhile] at h
  | cons x s ih =>
    intro a t h
    cases hpx : p x with
    | true =>
      rw [List.dropWhile_cons, hpx, if_pos rfl] at h
      exact ih a t h
    | false =>
      rw [List.dropWhile_cons, hpx] at h
      simp at h
      rw [← h.1]
      exact hpx

/-- In a timestamp-sorted buffer, every element surviving the front-eviction
scan is at least the cutoff. -/
lemma mem_dropWhile_cutoff_le {c : ℚ} :
    ∀ {l : List Measurement},
      l.Pairwise (fun a b => a.timestamp ≤ b.timestamp) →
      ∀ x ∈ l.dropWhile (fun m => decide (m.timestamp < c)), c ≤ x.timestamp := by
  intro l
  induction l with
  | nil => intro _ x hx; simp [List.dropWhile] at hx
  | cons a t ih =>
    intro hp x hx
    by_cases ha : a.timestamp < c
    · rw [List.dropWhile_cons, if_pos (decide_eq_true ha)] at hx
      exact ih hp.of_cons x hx
    · rw [List.dropWhile_cons, if_neg (by simpa using ha)] at hx
      push_neg at ha
      rcases List.mem_cons.mp hx with rfl | hxt
      · exact ha
      · exact le_trans ha (List.rel_of_pairwise_cons hp hxt)

/-! ### Window-buffer theorems -/

/-- Inversion for a successful `Except` bind. -/
lemma except_bind_eq_ok {ε α β : Type _} (x : Except ε α) (f : α → Except ε β)
    (b : β) : (x >>= f) = .ok b ↔ ∃ a, x = .ok a ∧ f a = .ok b := by
  cases x with
  | error e => simp [Bind.bind, Except.bind]
  | ok a => simp [Bind.bind, Except.bind]

/-- Characterization of successful decoding: `deserialize` returns a
`Measurement` exactly when the payload parsed as some JSON value on which
every required subscript succeeds; the extracted values are stored exactly
as found (no numeric check), and the timestamp is the clock argument. -/
lemma deserialize_eq_ok_characterization (ts : ℚ) (data : Except PyError Json)
    (m : Measurement) :
    Measurement.deserialize ts data = .ok m ↔
      ∃ j gy ac, data = .ok j
        ∧ j.subscript "roll" = .ok m.rot.roll
        ∧ j.subscript "pitch" = .ok m.rot.pitch
        ∧ j.subscript "temp" = .ok m.temp
        ∧ j.subscript "gyro" = .ok gy
        ∧ gy.subscript "x" = .ok m.gyro.x
        ∧ gy.subscript "y" = .ok m.gyro.y
        ∧ gy.subscript "z" = .ok m.gyro.z
        ∧ j.subscript "acc" = .ok ac
        ∧ ac.subscript "x" = .ok m.acc.x
        ∧ ac.subscript "y" = .ok m.acc.y
        ∧ ac.subscript "z" = .ok m.acc.z
        ∧ m.timestamp = ts := by
  constructor
  · intro h
    unfold Measurement.deserialize at h
    rw [except_bind_eq_ok] at h
    obtain ⟨j, hj, h⟩ := h
    rw [except_bind_eq_ok] at h
    obtain ⟨r, hr, h⟩ := h
    rw [except_bind_eq_ok] at h
    obtain ⟨pq, hp, h⟩ := h
    rw [except_bind_eq_ok] at h
    obtain ⟨t, ht, h⟩ := h
    rw [except_bind_eq_ok] at h
    obtain ⟨g1, hg1, h⟩ := h
    rw [except_bind_eq_ok] at h
    obtain ⟨gx, hgx, h⟩ := h
    rw [except_bind_eq_ok] at h
    obtain ⟨g2, hg2, h⟩ := h
    rw [except_bind_eq_ok] at h
    obtain ⟨gyv, hgy, h⟩ := h
    rw [except_bind_eq_ok] at h
    obtain ⟨g3, hg3, h⟩ := h
    rw [except_bind_eq_ok] at h
    obtain ⟨gz, hgz, h⟩ := h
    rw [except_bind_eq_ok] at h
    obtain ⟨a1, ha1, h⟩ := h
    rw [except_bind_eq_ok] at h
    obtain ⟨ax, hax, h⟩ := h
    rw [except_bind_eq_ok] at h
    obtain ⟨a2, ha2, h⟩ := h
    rw [except_bind_eq_ok] at h
    obtain ⟨ay, hay, h⟩ := h
    rw [except_bind_eq_ok] at h
    obtain ⟨a3, ha3, h⟩ := h
    rw [except_bind_eq_ok] at h
    obtain ⟨az, haz, hm⟩ := h
    simp only [Pure.pure, Except.pure, Except.ok.injEq] at hm
    rw [hg1] at hg2 hg3
    rw [ha1] at ha2 ha3
    injection hg2 with hg2
    injection hg3 with hg3
    injection ha2 with ha2
    injection ha3 with ha3
    subst hg2 hg3 ha2 ha3
    subst hm
    exact ⟨j, g1, a1, hj, hr, hp, ht, hg1, hgx, hgy, hgz, ha1, hax, hay, haz, rfl⟩
  · rintro ⟨j, gy, ac, rfl, hr, hp, ht, hg, hgx, hgy, hgz, ha, hax, hay, haz, hts⟩
    unfold Measurement.deserialize
    rw [except_bind_eq_ok]
    refine ⟨j, rfl, ?_⟩
    rw [except_bind_eq_ok]
    refine ⟨m.rot.roll, hr, ?_⟩
    rw [except_bind_eq_ok]
    refine ⟨m.rot.pitch, hp, ?_⟩
    rw [except_bind_eq_ok]
    refine ⟨m.temp, ht, ?_⟩
    rw [except_bind_eq_ok]
    refine ⟨gy, hg, ?_⟩
    rw [except_bind_eq_ok]
    refine ⟨m.gyro.x, hgx, ?_⟩
    rw [except_bind_eq_ok]
    refine ⟨gy, hg, ?_⟩
    rw [except_bind_eq_ok]
    refine ⟨m.gyro.y, hgy, ?_⟩
    rw [except_bind_eq_ok]
    refine ⟨gy, hg, ?_⟩
    rw [except_bind_eq_ok]
    refine ⟨m.gyro.z, hgz, ?_⟩
    rw [except_bind_eq_ok]
    refine ⟨ac, ha, ?_⟩
    rw [except_bind_eq_ok]
    refine ⟨m.acc.x, hax, ?_⟩
    rw [except_bind_eq_ok]
    refine ⟨ac, ha, ?_⟩
    rw [except_bind_eq_ok]
    refine ⟨m.acc.y, hay, ?_⟩
    rw [except_bind_eq_ok]
    refine ⟨ac, ha, ?_⟩
    rw [except_bind_eq_ok]
    refine ⟨m.acc.z, haz, ?_⟩
    subst hts
    rfl

/-- Evaluation of `update` when every step succeeds. -/
lemma update_eq_of (s : PlotterState) (T : List (List Json)) (mn mx tl tf : ℚ)
    (hlen : ¬ (s.data.length ≤ 1))
    (hsc : DataPlotter.scaledSeries s.meas_type s.data = .ok T)
    (hT : T.length = s.lines.length)
    (hgl : (s.data.map fun d => d.timestamp - s.start_time).getLast? = some tl)
    (hhd : (s.data.map fun d => d.timestamp - s.start_time).head? = some tf)
    (hmn : npMin T = .ok mn) (hmx : npMax T = .ok mx) :
    DataPlotter.update s = .ok
      { s with
        lines := (s.lines.zip T).map fun p =>
          (s.data.map fun d => d.timestamp - s.start_time, p.2)
        xlim := if s.window_s ≤ tl then (tf, tl) else ((0 : ℚ), s.window_s)
        ylim := (mn - 0.1 * |mn|, mx + 0.1 * |mx|) } := by
  rw [DataPlotter.update]
  dsimp only [DataPlotter.snapshot]
  rw [if_neg hlen, hsc]
  dsimp only
  rw [if_pos hT, hgl, hhd]
  dsimp only
  rw [hmn, hmx]

/-- Mapping the numpy scale over an all-numeric series multiplies every
element by the factor. -/
lemma mapM_jsonScale_num {α : Type _} (f : ℚ) (g : α → ℚ) (l : List α) :
    (l.map fun a => Json.num (g a)).mapM (jsonScale f)
      = .ok (l.map fun a => Json.num (g a * f)) := by
  induction l with
  | nil => rfl
  | cons a t ih =>
    rw [List.map_cons, List.mapM_cons, ih]
    simp [jsonScale, Bind.bind, Except.bind, Pure.pure, Except.pure]

/-- Reading numbers with `mapM jsonToNum` succeeds on a list of all-numeric stored values and
has the same length. -/
lemma mapM_jsonToNum_all_num (l : List Json)
    (h : ∀ j ∈ l, ∃ q, j = Json.num q) :
    ∃ qs, l.mapM jsonToNum = .ok qs ∧ qs.length = l.length := by
  induction l with
  | nil => exact ⟨[], rfl, rfl⟩
  | cons a t ih =>
    obtain ⟨q, hq⟩ := h a (List.mem_cons_self a t)
    obtain ⟨qs, hqs, hql⟩ := ih fun j hj => h j (List.mem_cons_of_mem a hj)
    refine ⟨q :: qs, ?_, by simp [hql]⟩
    rw [hq, List.mapM_cons, hqs]
    simp [jsonToNum, Bind.bind, Except.bind, Pure.pure, Except.pure]

/-- The model of `np.min` succeeds on a nonempty all-numeric collection of series. -/
lemma npMin_all_num (T : List (List Json))
    (hnum : ∀ j ∈ T.flatten, ∃ q, j = Json.num q)
    (hne : T.flatten ≠ []) : ∃ q, npMin T = .ok q := by
  obtain ⟨qs, hqs, hql⟩ := mapM_jsonToNum_all_num T.flatten hnum
  unfold npMin
  simp only [hqs, Bind.bind, Except.bind]
  cases qs with
  | nil =>
    exfalso
    apply hne
    have : T.flatten.length = 0 := by rw [← hql]; rfl
    exact List.eq_nil_of_length_eq_zero this
  | cons a t => exact ⟨_, rfl⟩

/-- The model of `np.max` succeeds on a nonempty all-numeric collection of series. -/
lemma npMax_all_num (T : List (List Json))
    (hnum : ∀ j ∈ T.flatten, ∃ q, j = Json.num q)
    (hne : T.flatten ≠ []) : ∃ q, npMax T = .ok q := by
  obtain ⟨qs, hqs, hql⟩ := mapM_jsonToNum_all_num T.flatten hnum
  unfold npMax
  simp only [hqs, Bind.bind, Except.bind]
  cases qs with
  | nil =>
    exfalso
    apply hne
    have : T.flatten.length = 0 := by rw [← hql]; rfl
    exact List.eq_nil_of_length_eq_zero this
  | cons a t => exact ⟨_, rfl⟩

/-- C5: for every sequence of appends, a subsequent snapshot returns the
samples in append order, and the returned sequence is a contiguous suffix of
the full append sequence: only a prefix may have been evicted, with no
reordering, insertion, or gap. -/
theorem snapshot_suffix_of_appends (window_s : ℚ) (s : PlotterState)
    (l : List (Measurement × ℚ)) (h : s.data = runAppends window_s [] l) :
    DataPlotter.snapshot s <:+ l.map Prod.fst := by
  rw [DataPlotter.snapshot, h]
  simpa using runAppends_suffix window_s [] l

/-- Witness for `snapshot_suffix_of_appends` at a concrete run. -/
theorem snapshot_suffix_of_appends_witness :
    DataPlotter.snapshot exampleBufferState <:+ [mkMeas 0, mkMeas 5] :=
  snapshot_suffix_of_appends 10 exampleBufferState [(mkMeas 0, 0), (mkMeas 5, 5)] rfl

/-- C2 fails on the code: eviction compares against a fresh
`time.time()` read (`now = 20`), not the timestamp of the sample just
appended. Appending a sample with timestamp 10 at clock 20 onto a buffer
holding timestamp 0 with `windowSeconds = 10` evicts everything — including
the element with timestamp 0, which the claimed cutoff
`latestTimestamp − windowSeconds = 0` would have kept. -/
theorem append_eviction_reference_counterexample :
    DataPlotter.update_data_while_locked 10 [mkMeas 0] (mkMeas 10) 20 = [mkMeas 10]
    ∧ ¬ ((mkMeas 0).timestamp < (mkMeas 10).timestamp - 10) := by
  constructor
  · norm_num [DataPlotter.update_data_while_locked, List.dropWhile, mkMeas]
  · norm_num [mkMeas]

/-- C2 (amended): the append adds the sample at the
ordered end and then evicts from the front exactly the maximal leading run
of elements whose timestamp is `< now − windowSeconds`, where `now` is a
fresh clock reading taken during the append — not the timestamp of the
sample just appended. -/
theorem append_evicts_stale_front (window_s : ℚ) (data : List Measurement)
    (point : Measurement) (now : ℚ) :
    ∃ evicted,
      data ++ [point]
        = evicted ++ DataPlotter.update_data_while_locked window_s data point now
      ∧ (∀ x ∈ evicted, x.timestamp < now - window_s)
      ∧ ∀ hd rest, DataPlotter.update_data_while_locked window_s data point now
          = hd :: rest → ¬ (hd.timestamp < now - window_s) := by
  simp only [DataPlotter.update_data_while_locked]
  refine ⟨(data ++ [point]).takeWhile
    (fun m => decide (m.timestamp < now - window_s)), ?_, ?_, ?_⟩
  · exact (List.takeWhile_append_dropWhile _ _).symm
  · intro x hx
    simpa using List.mem_takeWhile_imp hx
  · intro hd rest hhd
    have hfalse := head_dropWhile_eq_false
      (fun m => decide (m.timestamp < now - window_s)) (data ++ [point]) hd rest hhd
    simpa using hfalse

/-- C3 fails on the code: after a backwards wall-clock step the buffer
can retain an element older than the window. Appending timestamps
100, 0, 100 (all at clock 100, `windowSeconds = 10`) leaves the element
with timestamp 0 in the buffer, violating
`timestamp ≥ lastAppendedTimestamp − windowSeconds = 90`, because the
eviction scan stops at the first fresh front element. -/
theorem window_invariant_counterexample :
    ¬ (∀ x ∈ runAppends 10 [] [(mkMeas 100, 100), (mkMeas 0, 100), (mkMeas 100, 100)],
        (mkMeas 100).timestamp - 10 ≤ x.timestamp) := by
  intro h
  have hx : mkMeas 0 ∈ runAppends 10 []
      [(mkMeas 100, 100), (mkMeas 0, 100), (mkMeas 100, 100)] := by
    norm_num [runAppends, DataPlotter.update_data_while_locked, List.dropWhile, mkMeas]
  have hc := h _ hx
  norm_num [mkMeas] at hc

/-- C3 (amended): if the appended samples carry nondecreasing timestamps
and each append's clock reading is at least the appended sample's timestamp
(both hold whenever the wall clock is monotone), then after every append
each element remaining in the buffer satisfies
`timestamp ≥ lastAppendedTimestamp − windowSeconds`. -/
theorem window_invariant_monotone (window_s : ℚ)
    (l : List (Measurement × ℚ)) (p : Measurement) (now : ℚ)
    (hmono : ((l ++ [(p, now)]).map fun pc => pc.1.timestamp).Pairwise (· ≤ ·))
    (hclock : p.timestamp ≤ now) :
    ∀ x ∈ runAppends window_s [] (l ++ [(p, now)]),
      p.timestamp - window_s ≤ x.timestamp := by
  intro x hx
  rw [runAppends, List.foldl_append] at hx
  simp only [List.foldl_cons, List.foldl_nil] at hx
  rw [DataPlotter.update_data_while_locked] at hx
  have hsuf : List.foldl (fun buf pc =>
      DataPlotter.update_data_while_locked window_s buf pc.1 pc.2) [] l
      <:+ l.map Prod.fst := by
    simpa using runAppends_suffix window_s [] l
  have hsuf2 : List.foldl (fun buf pc =>
      DataPlotter.update_data_while_locked window_s buf pc.1 pc.2) [] l ++ [p]
      <:+ l.map Prod.fst ++ [p] := by
    obtain ⟨r, hr⟩ := hsuf
    exact ⟨r, by rw [← List.append_assoc, hr]⟩
  have hpair : (l.map Prod.fst ++ [p]).Pairwise
      (fun a b => a.timestamp ≤ b.timestamp) := by
    have h1 : ((l ++ [(p, now)]).map Prod.fst).Pairwise
        (fun a b => a.timestamp ≤ b.timestamp) := by
      rw [List.pairwise_map]
      rw [List.pairwise_map] at hmono
      exact hmono
    simpa using h1
  have hpair2 := hpair.sublist hsuf2.sublist
  have hcut := mem_dropWhile_cutoff_le hpair2 x hx
  have : p.timestamp - window_s ≤ now - window_s := by linarith
  linarith

/-- Witness for `window_invariant_monotone`: appending timestamps 0 then 5
at clocks 0 and 5 with `windowSeconds = 10` leaves the element with
timestamp 0, which satisfies `0 ≥ 5 − 10`. -/
theorem window_invariant_monotone_witness :
    (mkMeas 5).timestamp - 10 ≤ (mkMeas 0).timestamp :=
  window_invariant_monotone 10 [(mkMeas 0, 0)] (mkMeas 5) 5
    (by norm_num [mkMeas, List.pairwise_cons]) (by norm_num [mkMeas])
    (mkMeas 0)
    (by norm_num [runAppends, DataPlotter.update_data_while_locked,
                  List.dropWhile, mkMeas])

/-! ### Receiver-loop theorems -/

/-- C1 fails on the code: the receiver's `try` catches only
`socket.timeout`, so a datagram whose payload fails to decode (here an
empty JSON object, missing `roll`) raises out of `_update_data` and kills
the receiver thread; the following well-formed datagram is never ingested
and nothing reaches the buffer. -/
theorem receiver_drop_continue_counterexample :
    DataPlotter.update_data 10 []
      [.datagram (.ok (.obj [])) 0 0, .datagram (.ok examplePayload) 1 1]
      = .error (.keyError "roll") := rfl

/-- C1 (amended): only `socket.timeout` is absorbed by the receiver
loop. A datagram whose payload fails to decode is not dropped: the decode
exception propagates out of `_update_data` and halts ingestion — the
remaining events are never processed and the buffer is left as it was. -/
theorem receiver_decode_failure_halts (window_s : ℚ) (data : List Measurement)
    (parsed : Except PyError Json) (ts now : ℚ) (rest : List DataPlotter.RecvEvent)
    (e : PyError) (hdec : Measurement.deserialize ts parsed = .error e) :
    DataPlotter.update_data window_s data
      (.timeout :: .datagram parsed ts now :: rest) = .error e := by
  simp [DataPlotter.update_data, hdec]

/-- Witness for `receiver_decode_failure_halts`: a timeout tick followed by
a malformed datagram halts the loop with the decode error. -/
theorem receiver_decode_failure_halts_witness :
    DataPlotter.update_data 10 []
      [.timeout, .datagram (.ok (.obj [])) 0 0] = .error (.keyError "roll") :=
  receiver_decode_failure_halts 10 [] (.ok (.obj [])) 0 0 [] (.keyError "roll") rfl

/-! ### Decoder theorems -/

/-- C8: the spec's example payload decodes to rotation `{0.1, -0.2}`,
temperature `36.5`, angular velocity `{0,0,0}` and raw linear acceleration
`{0,0,1}`, and the sample's timestamp equals the decoder's clock reading at
call time — whatever that reading is — never a payload value. -/
theorem decode_example_payload (ts : ℚ) :
    Measurement.deserialize ts (.ok examplePayload) = .ok
      { timestamp := ts, temp := .num 36.5, rot := ⟨.num 0.1, .num (-0.2)⟩,
        gyro := ⟨.num 0, .num 0, .num 0⟩, acc := ⟨.num 0, .num 0, .num 1⟩ } := rfl

/-- C10: whenever the required lookups all succeed — whatever other
keys the object carries — decode succeeds, and the result depends only on
the values under the required keys; unknown keys are ignored. -/
theorem decode_ignores_unknown_keys (ts : ℚ)
    (j gy ac r pq t gx gyv gz ax ay az : Json)
    (hr : j.subscript "roll" = .ok r) (hp : j.subscript "pitch" = .ok pq)
    (ht : j.subscript "temp" = .ok t) (hg : j.subscript "gyro" = .ok gy)
    (hgx : gy.subscript "x" = .ok gx) (hgy : gy.subscript "y" = .ok gyv)
    (hgz : gy.subscript "z" = .ok gz) (ha : j.subscript "acc" = .ok ac)
    (hax : ac.subscript "x" = .ok ax) (hay : ac.subscript "y" = .ok ay)
    (haz : ac.subscript "z" = .ok az) :
    Measurement.deserialize ts (.ok j) = .ok
      { timestamp := ts, temp := t, rot := ⟨r, pq⟩,
        gyro := ⟨gx, gyv, gz⟩, acc := ⟨ax, ay, az⟩ } := by
  unfold Measurement.deserialize
  simp [Bind.bind, Except.bind, Functor.map, Except.map, Pure.pure, Except.pure,
        hr, hp, ht, hg, hgx, hgy, hgz, ha, hax, hay, haz]

/-- Witness for `decode_ignores_unknown_keys`: the example payload with an
extra unrecognized key decodes exactly as the example payload does. -/
theorem decode_ignores_unknown_keys_witness :
    Measurement.deserialize 7 (.ok examplePayloadExtraKey) = .ok
      { timestamp := 7, temp := .num 36.5, rot := ⟨.num 0.1, .num (-0.2)⟩,
        gyro := ⟨.num 0, .num 0, .num 0⟩, acc := ⟨.num 0, .num 0, .num 1⟩ } :=
  decode_ignores_unknown_keys 7 examplePayloadExtraKey _ _ _ _ _ _ _ _ _ _ _
    rfl rfl rfl rfl rfl rfl rfl rfl rfl rfl rfl

/-- C4 fails on the code: a required field that is present but
non-numeric does not yield a `DecodeError` — `deserialize` performs no
type check on leaf values and constructs a `Measurement` holding the
non-numeric value (here a string under `roll`). -/
theorem deserialize_non_numeric_counterexample :
    Measurement.deserialize 0 (.ok examplePayloadStrRoll) = .ok
      { timestamp := 0, temp := .num 36.5, rot := ⟨.str "oops", .num (-0.2)⟩,
        gyro := ⟨.num 0, .num 0, .num 0⟩, acc := ⟨.num 0, .num 0, .num 1⟩ } := rfl

/-- C4 (amended): decode yields a `DecodeError` (and constructs no
`Measurement`, not even a partially populated one) exactly when the payload
is malformed JSON, a required key is missing, or `gyro`/`acc` is not an
object carrying the `x`/`y`/`z` keys; present leaf values are extracted
without numeric validation and stored as-is. -/
theorem deserialize_ok_iff (ts : ℚ) (data : Except PyError Json)
    (m : Measurement) :
    Measurement.deserialize ts data = .ok m ↔
      ∃ j gy ac, data = .ok j
        ∧ j.subscript "roll" = .ok m.rot.roll
        ∧ j.subscript "pitch" = .ok m.rot.pitch
        ∧ j.subscript "temp" = .ok m.temp
        ∧ j.subscript "gyro" = .ok gy
        ∧ gy.subscript "x" = .ok m.gyro.x
        ∧ gy.subscript "y" = .ok m.gyro.y
        ∧ gy.subscript "z" = .ok m.gyro.z
        ∧ j.subscript "acc" = .ok ac
        ∧ ac.subscript "x" = .ok m.acc.x
        ∧ ac.subscript "y" = .ok m.acc.y
        ∧ ac.subscript "z" = .ok m.acc.z
        ∧ m.timestamp = ts :=
  deserialize_eq_ok_characterization ts data m

/-! ### Projector theorems -/

/-- C6: projecting any channel over a snapshot of 0 or 1 elements is
the "insufficient data" no-op: `update` returns the state unchanged — no
series is computed, no output is modified, and no error is raised. -/
theorem update_insufficient_data (s : PlotterState)
    (h : (DataPlotter.snapshot s).length ≤ 1) :
    DataPlotter.update s = .ok s := by
  rw [DataPlotter.update, if_pos h]

/-- Witness for `update_insufficient_data` on a singleton snapshot. -/
theorem update_insufficient_data_witness :
    DataPlotter.update exampleSingletonState = .ok exampleSingletonState :=
  update_insufficient_data exampleSingletonState (by decide)

/-- C9: the consumer's projection never mutates the window buffer:
whenever `update` returns a state, its buffer contents are exactly what
they were before the call — only the producer's append/evict path modifies
the buffer. -/
theorem update_preserves_buffer (s s' : PlotterState)
    (h : DataPlotter.update s = .ok s') : s'.data = s.data := by
  rw [DataPlotter.update] at h
  dsimp only at h
  repeat
    first
    | (injection h with h; rw [← h])
    | exact Except.noConfusion h
    | split at h

/-- C7: on every snapshot with more than one element whose stored raw
acceleration components are the numbers listed in `accs`, projecting the
`linearAcceleration` (`acc`) channel succeeds and assigns as y-series each
stored component multiplied by exactly -9.8, sign flip included. -/
theorem acc_series_scaled_by_neg_g (s : PlotterState) (accs : List (ℚ × ℚ × ℚ))
    (hacc : s.data.map (fun d => d.acc)
      = accs.map fun v => ThreeVector.mk (.num v.1) (.num v.2.1) (.num v.2.2))
    (hty : s.meas_type = MeasType.acc)
    (hlen : 1 < s.data.length)
    (hlines : s.lines.length = 3) :
    ∃ s', DataPlotter.update s = .ok s'
      ∧ s'.lines.map Prod.snd =
        [accs.map fun v => Json.num (v.1 * (-9.8)),
         accs.map fun v => Json.num (v.2.1 * (-9.8)),
         accs.map fun v => Json.num (v.2.2 * (-9.8))] := by
  have hx : s.data.map (fun d => d.acc.x) = accs.map fun v => Json.num v.1 := by
    have h1 := congrArg (List.map fun a : ThreeVector => a.x) hacc
    simpa [List.map_map, Function.comp] using h1
  have hy : s.data.map (fun d => d.acc.y) = accs.map fun v => Json.num v.2.1 := by
    have h1 := congrArg (List.map fun a : ThreeVector => a.y) hacc
    simpa [List.map_map, Function.comp] using h1
  have hz : s.data.map (fun d => d.acc.z) = accs.map fun v => Json.num v.2.2 := by
    have h1 := congrArg (List.map fun a : ThreeVector => a.z) hacc
    simpa [List.map_map, Function.comp] using h1
  have hscaled : DataPlotter.scaledSeries s.meas_type s.data = .ok
      [accs.map fun v => Json.num (v.1 * (-9.8)),
       accs.map fun v => Json.num (v.2.1 * (-9.8)),
       accs.map fun v => Json.num (v.2.2 * (-9.8))] := by
    rw [hty, DataPlotter.scaledSeries, if_pos rfl]
    dsimp only [DataPlotter.timeseriesFor]
    rw [hx, hy, hz]
    rw [List.mapM_cons, List.mapM_cons, List.mapM_cons, List.mapM_nil]
    rw [mapM_jsonScale_num, mapM_jsonScale_num, mapM_jsonScale_num]
    simp [Bind.bind, Except.bind, Pure.pure, Except.pure]
  have haccs_len : accs.length = s.data.length := by
    have h1 := congrArg List.length hacc
    simpa using h1.symm
  have haccs_ne : accs ≠ [] := by
    intro h0
    rw [h0] at haccs_len
    simp at haccs_len
    omega
  have hnum : ∀ j ∈ ([accs.map fun v => Json.num (v.1 * (-9.8)),
       accs.map fun v => Json.num (v.2.1 * (-9.8)),
       accs.map fun v => Json.num (v.2.2 * (-9.8))] : List (List Json)).flatten,
      ∃ q, j = Json.num q := by
    intro j hj
    obtain ⟨ser, hser, hj⟩ := List.mem_flatten.mp hj
    simp only [List.mem_cons, List.not_mem_nil, or_false] at hser
    rcases hser with rfl | rfl | rfl <;>
      (obtain ⟨v, _, rfl⟩ := List.mem_map.mp hj; exact ⟨_, rfl⟩)
  have hne : ([accs.map fun v => Json.num (v.1 * (-9.8)),
       accs.map fun v => Json.num (v.2.1 * (-9.8)),
       accs.map fun v => Json.num (v.2.2 * (-9.8))] : List (List Json)).flatten
      ≠ [] := by
    intro h0
    simp [List.flatten] at h0
    exact haccs_ne h0
  obtain ⟨mn, hmn⟩ := npMin_all_num _ hnum hne
  obtain ⟨mx, hmx⟩ := npMax_all_num _ hnum hne
  have hdata_ne : s.data ≠ [] := by
    intro h0
    rw [h0] at hlen
    simp at hlen
  obtain ⟨tl, hgl⟩ :
      ∃ tl, (s.data.map fun d => d.timestamp - s.start_time).getLast? = some tl := by
    cases hq : (s.data.map fun d => d.timestamp - s.start_time).getLast? with
    | none =>
      exfalso
      apply hdata_ne
      have h1 := List.getLast?_eq_none_iff.mp hq
      simpa using h1
    | some t => exact ⟨t, rfl⟩
  obtain ⟨tf, hhd⟩ :
      ∃ tf, (s.data.map fun d => d.timestamp - s.start_time).head? = some tf := by
    cases hsd : s.data with
    | nil => exact absurd hsd hdata_ne
    | cons d0 dtl => exact ⟨d0.timestamp - s.start_time, by simp [hsd]⟩
  have hTlen : ([accs.map fun v => Json.num (v.1 * (-9.8)),
       accs.map fun v => Json.num (v.2.1 * (-9.8)),
       accs.map fun v => Json.num (v.2.2 * (-9.8))] : List (List Json)).length
      = s.lines.length := by simp [hlines]
  have hupd := update_eq_of s _ mn mx tl tf (by omega) hscaled hTlen hgl hhd hmn hmx
  refine ⟨_, hupd, ?_⟩
  show ((s.lines.zip ([accs.map fun v => Json.num (v.1 * (-9.8)),
       accs.map fun v => Json.num (v.2.1 * (-9.8)),
       accs.map fun v => Json.num (v.2.2 * (-9.8))] : List (List Json))).map fun p =>
      (s.data.map fun d => d.timestamp - s.start_time, p.2)).map Prod.snd
      = [accs.map fun v => Json.num (v.1 * (-9.8)),
         accs.map fun v => Json.num (v.2.1 * (-9.8)),
         accs.map fun v => Json.num (v.2.2 * (-9.8))]
  rw [List.map_map]
  have hcomp : (Prod.snd ∘ fun p : (List ℚ × List Json) × List Json =>
      ((s.data.map fun d => d.timestamp - s.start_time), p.2))
      = Prod.snd := rfl
  rw [hcomp]
  apply List.map_snd_zip
  simp [hlines]

/-- Witness for `acc_series_scaled_by_neg_g`: stored raw acceleration
`{0,0,1}` projects to `{0 * -9.8, 0 * -9.8, 1 * -9.8}` = `{0,0,-9.8}`. -/
theorem acc_series_scaled_by_neg_g_witness :
    ∃ s', DataPlotter.update exampleAccState = .ok s'
      ∧ s'.lines.map Prod.snd =
        [[Json.num (0 * (-9.8)), Json.num (0 * (-9.8))],
         [Json.num (0 * (-9.8)), Json.num (0 * (-9.8))],
         [Json.num (1 * (-9.8)), Json.num (1 * (-9.8))]] :=
  acc_series_scaled_by_neg_g exampleAccState [(0, 0, 1), (0, 0, 1)]
    rfl rfl (by decide) rfl

/-- Witness for `update_preserves_buffer`: a successful `update` run leaves
the buffer contents untouched. -/
theorem update_preserves_buffer_witness :
    exampleSingletonState.data = exampleSingletonState.data :=
  update_preserves_buffer exampleSingletonState exampleSingletonState rfl
